import Mathlib

/-!
Shallow embedding of the client-side notification pipeline of
`src/app/core/services/notification.service.ts` (class `NotificationService`).

Modelling conventions:
* Machine time (`Date.now()`, `new Date().getTime()`) is passed to each
  operation as an explicit `now : Nat` argument; differences are computed in
  `Int` to mirror JavaScript number subtraction.
* The `notificationThrottle : Map<string, number>` is an association list with
  first-match lookup; `Map.set` is modelled by prepending the new binding.
* `generateId()` (random) is modelled by an explicit `freshId` argument.
* Remote Firestore calls are fire-and-forget and wrapped in try/catch in the
  source; each mutating operation takes a `persistOk : Bool` oracle for the
  outcome of its remote call and returns `ServiceState × List String`, the
  second component being the console log lines produced.  The source catches
  every persistence error, so no operation is `Except`-valued.
* JavaScript truthiness is modelled where it matters: `lastNotification &&`
  treats a stored timestamp `0` as absent, and `if (notification.userId)`
  treats the empty string as absent.
-/

namespace Warehouse

/-- Field `type: 'success' | 'error' | 'warning' | 'info'` of the `Notification`
interface. -/
inductive NType where
  | success
  | error
  | warning
  | info
deriving DecidableEq

/-- Field `priority: 'low' | 'medium' | 'high' | 'critical'`. -/
inductive NPriority where
  | low
  | medium
  | high
  | critical
deriving DecidableEq

/-- The `Notification` interface (the `id`, `timestamp`, `read` fields are
always assigned by `addNotification` before a record enters the live list, so
they are non-optional here). -/
structure Notification where
  id : String
  title : String
  message : String
  type : NType
  timestamp : Nat
  read : Bool
  userId : Option String := none
  actionUrl : Option String := none
  priority : NPriority
  category : Option String := none
  suppressible : Option Bool := none
deriving DecidableEq

/-- The argument of `addNotification`:
`Omit<Notification, 'id' | 'timestamp' | 'read'>`. -/
structure NotifInput where
  title : String
  message : String
  type : NType
  userId : Option String := none
  actionUrl : Option String := none
  priority : NPriority
  category : Option String := none
  suppressible : Option Bool := none
deriving DecidableEq

/-- The private `userSettings` record. -/
structure UserSettings where
  showSuccessNotifications : Bool
  showInfoNotifications : Bool
  showWarningNotifications : Bool
  showErrorNotifications : Bool
  showStockAdjustmentNotifications : Bool
  throttleDuration : Nat
  maxNotificationsPerMinute : Nat
deriving DecidableEq

/-- The initial value of `userSettings` in the source. -/
def defaultSettings : UserSettings :=
  { showSuccessNotifications := true
    showInfoNotifications := false
    showWarningNotifications := true
    showErrorNotifications := true
    showStockAdjustmentNotifications := false
    throttleDuration := 3000
    maxNotificationsPerMinute := 10 }

/-- The argument of `updateSettings`: `Partial<typeof this.userSettings>`. -/
structure SettingsPatch where
  showSuccessNotifications : Option Bool := none
  showInfoNotifications : Option Bool := none
  showWarningNotifications : Option Bool := none
  showErrorNotifications : Option Bool := none
  showStockAdjustmentNotifications : Option Bool := none
  throttleDuration : Option Nat := none
  maxNotificationsPerMinute : Option Nat := none
deriving DecidableEq

/-- Merge `{ ...this.userSettings, ...settings }`. -/
def applySettingsPatch (p : SettingsPatch) (s : UserSettings) : UserSettings :=
  { showSuccessNotifications := p.showSuccessNotifications.getD s.showSuccessNotifications
    showInfoNotifications := p.showInfoNotifications.getD s.showInfoNotifications
    showWarningNotifications := p.showWarningNotifications.getD s.showWarningNotifications
    showErrorNotifications := p.showErrorNotifications.getD s.showErrorNotifications
    showStockAdjustmentNotifications :=
      p.showStockAdjustmentNotifications.getD s.showStockAdjustmentNotifications
    throttleDuration := p.throttleDuration.getD s.throttleDuration
    maxNotificationsPerMinute :=
      p.maxNotificationsPerMinute.getD s.maxNotificationsPerMinute }

/-- The in-memory state owned by the service: the live list
(`notificationsSubject.value`), the unread counter (`unreadCountSubject.value`),
the throttle map and the settings. -/
structure ServiceState where
  notifications : List Notification
  unreadCount : Nat
  throttle : List (String × Nat)
  settings : UserSettings
deriving DecidableEq

/-- The state right after construction: empty subjects, empty throttle map,
default settings. -/
def initialState : ServiceState :=
  { notifications := []
    unreadCount := 0
    throttle := []
    settings := defaultSettings }

/-! ### String helpers (`String.prototype.includes`, `toLowerCase`) -/

/-- Whether `p` occurs at the head of `l` (character-exact). -/
def leadsWith : List Char → List Char → Bool
  | [], _ => true
  | _ :: _, [] => false
  | p :: ps, c :: cs => p == c && leadsWith ps cs

/-- Whether `pat` occurs contiguously somewhere in `l`. -/
def charsContain (pat : List Char) : List Char → Bool
  | [] => leadsWith pat []
  | c :: rest => leadsWith pat (c :: rest) || charsContain pat rest

/-- JavaScript `s.includes(pat)`. -/
def strContains (s pat : String) : Bool :=
  charsContain pat.data s.data

/-- JavaScript `s.toLowerCase()`, character-wise (ASCII lowering, which covers
the source's `'stock'` comparisons). -/
def lowerChars (s : String) : List Char :=
  s.data.map Char.toLower

/-! ### The policy gates -/

/-- The `switch (type)` block of `shouldShowNotification`: per-type visibility
against the settings. -/
def typeVisible (u : UserSettings) : NType → Bool
  | .success => u.showSuccessNotifications
  | .info => u.showInfoNotifications
  | .warning => u.showWarningNotifications
  | .error => u.showErrorNotifications

/-- String name of a type, used to build the throttle key. -/
def typeName : NType → String
  | .success => "success"
  | .error => "error"
  | .warning => "warning"
  | .info => "info"

/-- The key `` `${type}-${category || 'default'}` ``. -/
def throttleKey (ty : NType) (category : Option String) : String :=
  typeName ty ++ "-" ++ category.getD "default"

/-- The per-call throttle window:
`category === 'stock' ? Math.max(throttleDuration * 3, 15000) : throttleDuration`. -/
def effectiveThrottleDuration (u : UserSettings) (category : Option String) : Nat :=
  if category = some "stock" then max (u.throttleDuration * 3) 15000
  else u.throttleDuration

/-- Source `shouldShowNotification(type, category)`.  Returns the decision together
with the (possibly updated) throttle map: the source mutates
`notificationThrottle` just before `return true`, and only then.
`lastNotification && …` is JavaScript truthiness: a stored `0` is skipped. -/
def shouldShowNotification (u : UserSettings) (throttle : List (String × Nat))
    (ty : NType) (category : Option String) (now : Nat) :
    Bool × List (String × Nat) :=
  if category = some "stock" ∨ category = some "inventory" then (false, throttle)
  else if typeVisible u ty = false then (false, throttle)
  else
    match List.lookup (throttleKey ty category) throttle with
    | some last =>
        if last ≠ 0 ∧ (now : Int) - (last : Int) <
            (effectiveThrottleDuration u category : Int) then (false, throttle)
        else (true, (throttleKey ty category, now) :: throttle)
    | none => (true, (throttleKey ty category, now) :: throttle)

/-- The hard content block at the top of `addNotification`: category `'stock'`
or `'stock'` occurring in the lower-cased title or message. -/
def stockContentBlocked (inp : NotifInput) : Bool :=
  inp.category == some "stock" ||
    charsContain "stock".data (lowerChars inp.title) ||
    charsContain "stock".data (lowerChars inp.message)

/-- The duplicate check of `addNotification`: an existing live entry with the
same title and message created within the last 5 seconds. -/
def isDuplicate (l : List Notification) (title message : String) (now : Nat) : Prop :=
  ∃ n ∈ l, n.title = title ∧ n.message = message ∧
    (now : Int) - (n.timestamp : Int) < 5000

instance (l : List Notification) (title message : String) (now : Nat) :
    Decidable (isDuplicate l title message now) :=
  List.decidableBEx _ l

/-- Count `unreadCount = notifications.filter(n => !n.read).length`
(`updateUnreadCount`). -/
def countUnread (l : List Notification) : Nat :=
  (l.filter fun n => !n.read).length

/-- JavaScript truthiness of `notification.userId`. -/
def userIdTruthy : Option String → Bool
  | none => false
  | some u => u ≠ ""

/-! ### The mutating operations -/

/-- The record built at the top of `addNotification`:
`{ ...notification, id: this.generateId(), timestamp: new Date(), read: false }`. -/
def mkNotification (inp : NotifInput) (now : Nat) (freshId : String) : Notification :=
  { id := freshId
    title := inp.title
    message := inp.message
    type := inp.type
    timestamp := now
    read := false
    userId := inp.userId
    actionUrl := inp.actionUrl
    priority := inp.priority
    category := inp.category
    suppressible := inp.suppressible }

/-- Source `addNotification(notification)`.  `now` is the machine clock, `freshId` the
value of `generateId()`, `persistOk` the outcome of the (caught) Firestore save
when one is attempted.  Returns the new state and the console log lines. -/
def addNotification (s : ServiceState) (inp : NotifInput) (now : Nat)
    (freshId : String) (persistOk : Bool) : ServiceState × List String :=
  if stockContentBlocked inp then
    (s, ["Stock notification blocked: " ++ inp.title])
  else if isDuplicate s.notifications inp.title inp.message now then
    (s, ["Duplicate notification prevented: " ++ inp.title])
  else
    ({ s with
        notifications := mkNotification inp now freshId :: s.notifications
        unreadCount := countUnread (mkNotification inp now freshId :: s.notifications) },
     if userIdTruthy inp.userId then
       if persistOk then [] else ["Error saving notification to Firestore:"]
     else [])

/-- The argument record the emission pipeline hands to `addNotification`
(`category: category || 'general'`). -/
def mkNotifInput (ty : NType) (title message : String) (category : Option String)
    (priority : NPriority) (suppressible : Option Bool)
    (userId actionUrl : Option String) : NotifInput :=
  { title := title
    message := message
    type := ty
    userId := userId
    actionUrl := actionUrl
    priority := priority
    category := some (category.getD "general")
    suppressible := suppressible }

/-- The emission pipeline (`showSuccess` / `showWarning` / `showInfo` /
`showError`, the spec's `emit`): run `shouldShowNotification` — which updates
the throttle map exactly when it returns `true` — and on success hand the
record to `addNotification` with `category || 'general'`. -/
def emitNotification (s : ServiceState) (ty : NType) (title message : String)
    (category : Option String) (priority : NPriority) (suppressible : Option Bool)
    (userId actionUrl : Option String) (now : Nat) (freshId : String)
    (persistOk : Bool) : ServiceState × List String :=
  if (shouldShowNotification s.settings s.throttle ty category now).1 then
    addNotification
      { s with throttle := (shouldShowNotification s.settings s.throttle ty category now).2 }
      (mkNotifInput ty title message category priority suppressible userId actionUrl)
      now freshId persistOk
  else
    ({ s with throttle := (shouldShowNotification s.settings s.throttle ty category now).2 },
     [])

/-- The per-entry update of `markAsRead`. -/
def setReadIfId (i : String) (n : Notification) : Notification :=
  if n.id = i then { n with read := true } else n

/-- Source `markAsRead(notificationId)`. -/
def markAsRead (s : ServiceState) (i : String) (persistOk : Bool) :
    ServiceState × List String :=
  ({ s with
      notifications := s.notifications.map (setReadIfId i)
      unreadCount := countUnread (s.notifications.map (setReadIfId i)) },
   if persistOk then [] else ["Error updating notification in Firestore:"])

/-- Source `markAllAsRead()`. -/
def markAllAsRead (s : ServiceState) (persistOk : Bool) :
    ServiceState × List String :=
  ({ s with
      notifications := s.notifications.map (fun n => { n with read := true })
      unreadCount := countUnread (s.notifications.map (fun n => { n with read := true })) },
   if persistOk then [] else ["Error updating all notifications in Firestore:"])

/-- Source `removeNotification(notificationId)`. -/
def removeNotification (s : ServiceState) (i : String) (persistOk : Bool) :
    ServiceState × List String :=
  ({ s with
      notifications := s.notifications.filter (fun n => n.id ≠ i)
      unreadCount := countUnread (s.notifications.filter (fun n => n.id ≠ i)) },
   if persistOk then [] else ["Error deleting notification from Firestore:"])

/-- Source `clearAllNotifications()`. -/
def clearAllNotifications (s : ServiceState) (persistOk : Bool) :
    ServiceState × List String :=
  ({ s with notifications := [], unreadCount := countUnread [] },
   if persistOk then [] else ["Error clearing all notifications from Firestore:"])

/-- The category/content predicate of `clearStockAdjustmentNotifications`
(the spec's `clearByCategory`): entries kept by the filter. -/
def keptByStockClear (n : Notification) : Bool :=
  n.category ≠ some "stock" &&
    !strContains n.title "Stock Adjustment" &&
    !strContains n.title "Stock adjustment" &&
    !strContains n.message "stock" &&
    !strContains n.message "Stock"

/-- Source `clearStockAdjustmentNotifications()` (purely local, no remote call). -/
def clearStockAdjustmentNotifications (s : ServiceState) :
    ServiceState × List String :=
  ({ s with
      notifications := s.notifications.filter keptByStockClear
      unreadCount := countUnread (s.notifications.filter keptByStockClear) },
   ["Cleared stock adjustment notifications. Remaining:"])

/-- Source `updateSettings(settings)`. -/
def updateSettings (s : ServiceState) (p : SettingsPatch) : ServiceState :=
  { s with settings := applySettingsPatch p s.settings }

/-- Source `notifyStockAdjustment(productName, quantity, type, userId)`: the body is a
`console.log` followed by `return` — no state change and no remote call (hence
no `persistOk` oracle in its signature). -/
def notifyStockAdjustment (s : ServiceState) (productName : String)
    (quantity : Int) (ty : String) (userId : Option String) :
    ServiceState × List String :=
  let _ := (productName, quantity, ty, userId)
  (s, ["Stock adjustment notification blocked:"])

/-! ### Operation sequences -/

/-- One emission call with its environment (clock value, generated id,
persistence outcome). -/
structure EmitCall where
  ty : NType
  title : String
  message : String
  category : Option String := none
  priority : NPriority
  suppressible : Option Bool := none
  userId : Option String := none
  actionUrl : Option String := none
  now : Nat
  freshId : String
  persistOk : Bool := true
deriving DecidableEq

/-- The state after one emission call (log discarded). -/
def emitStep (e : EmitCall) (s : ServiceState) : ServiceState :=
  (emitNotification s e.ty e.title e.message e.category e.priority e.suppressible
    e.userId e.actionUrl e.now e.freshId e.persistOk).1

/-- A public mutating operation of the service. -/
inductive Op where
  | emit (e : EmitCall)
  | markRead (i : String) (persistOk : Bool)
  | markAllRead (persistOk : Bool)
  | remove (i : String) (persistOk : Bool)
  | clearAll (persistOk : Bool)
  | clearStock
  | update (p : SettingsPatch)
deriving DecidableEq

/-- The state transition of one operation (log discarded). -/
def applyOp (op : Op) (s : ServiceState) : ServiceState :=
  match op with
  | .emit e => emitStep e s
  | .markRead i ok => (markAsRead s i ok).1
  | .markAllRead ok => (markAllAsRead s ok).1
  | .remove i ok => (removeNotification s i ok).1
  | .clearAll ok => (clearAllNotifications s ok).1
  | .clearStock => (clearStockAdjustmentNotifications s).1
  | .update p => updateSettings s p

/-- Run a sequence of operations, oldest first. -/
def runOps : List Op → ServiceState → ServiceState
  | [], s => s
  | op :: rest, s => runOps rest (applyOp op s)

/-- Run a sequence of emission calls, oldest first. -/
def runEmits : List EmitCall → ServiceState → ServiceState
  | [], s => s
  | e :: rest, s => runEmits rest (emitStep e s)

/-- The unread-counter invariant: the counter equals the number of unread
entries of the live list. -/
def unreadInv (s : ServiceState) : Prop :=
  s.unreadCount = countUnread s.notifications

instance (s : ServiceState) : Decidable (unreadInv s) := by
  unfold unreadInv; infer_instance

/-- The `NotifInput` an emission call hands to `addNotification`. -/
def emitInput (e : EmitCall) : NotifInput :=
  mkNotifInput e.ty e.title e.message e.category e.priority e.suppressible
    e.userId e.actionUrl

/-- The notification record an accepted emission call prepends. -/
def builtNotif (e : EmitCall) : Notification :=
  mkNotification (emitInput e) e.now e.freshId

/-- An emission call is accepted from state `s` when it survives all four
gates: category/visibility/throttle (in `shouldShowNotification`), the stock
content block, and the duplicate window (in `addNotification`). -/
def emitAccepts (s : ServiceState) (e : EmitCall) : Bool :=
  (shouldShowNotification s.settings s.throttle e.ty e.category e.now).1 &&
    !stockContentBlocked (emitInput e) &&
    !decide (isDuplicate s.notifications e.title e.message e.now)

/-- The notifications of a run of emission calls that get accepted, in call
order (oldest first). -/
def acceptedNotifs : List EmitCall → ServiceState → List Notification
  | [], _ => []
  | e :: rest, s =>
      (if emitAccepts s e then [builtNotif e] else []) ++
        acceptedNotifs rest (emitStep e s)

/-- Modelled from the spec: the claim reads the ThrottleState entry as "the
timestamp of the last accepted notification of that key" and predicts
rejection exactly when that timestamp lies within `throttleDuration`
milliseconds of `now`.  (File for comparison with the code's behavior.) -/
def specThrottleRejects (lastAccepted : Option Nat) (dur now : Nat) : Bool :=
  match lastAccepted with
  | none => false
  | some t => decide ((now : Int) - (t : Int) < (dur : Int))

/-- A concrete warning-type emission with category `'orders'`, used for the
throttle scenarios. -/
def ordersCall (t : Nat) (ti : String) : EmitCall :=
  { ty := .warning
    title := ti
    message := "M"
    category := some "orders"
    priority := .medium
    now := t
    freshId := "i" ++ toString t }

/-! ## Helper lemmas -/

/-- Gate lemma: `shouldShowNotification` approves exactly when the category is not
hard-blocked, the type is visible, and any stored throttle timestamp for the
key is either `0` (JavaScript-falsy) or outside the effective window. -/
theorem shouldShow_fst_true_iff (u : UserSettings) (th : List (String × Nat))
    (ty : NType) (cat : Option String) (now : Nat) :
    (shouldShowNotification u th ty cat now).1 = true ↔
      ¬(cat = some "stock" ∨ cat = some "inventory") ∧ typeVisible u ty = true ∧
      ∀ last, List.lookup (throttleKey ty cat) th = some last →
        ¬(last ≠ 0 ∧ (now : Int) - (last : Int) <
          (effectiveThrottleDuration u cat : Int)) := by
  unfold shouldShowNotification
  by_cases hblk : cat = some "stock" ∨ cat = some "inventory"
  · simp [hblk]
  · rw [if_neg hblk]
    by_cases hvis : typeVisible u ty = false
    · simp [hblk, hvis]
    · have hvis' : typeVisible u ty = true := by simpa using hvis
      rw [if_neg hvis]
      rcases hlk : List.lookup (throttleKey ty cat) th with _ | last
      · simp only [hlk]
        simp [hblk, hvis']
      · simp only [hlk]
        by_cases hin : last ≠ 0 ∧ (now : Int) - (last : Int) <
            (effectiveThrottleDuration u cat : Int)
        · rw [if_pos hin]
          simp only [iff_def]
          constructor
          · intro h; exact absurd h (by simp)
          · rintro ⟨-, -, hall⟩
            exact absurd hin (hall last rfl)
        · rw [if_neg hin]
          simp only [iff_def]
          refine ⟨fun _ => ⟨hblk, hvis', ?_⟩, fun _ => by trivial⟩
          intro l hl
          obtain rfl : last = l := by injection hl
          exact hin

/-- When the gate sequence of `shouldShowNotification` approves, the throttle
map gains the binding `(key, now)`. -/
theorem shouldShow_snd_of_fst_true (u : UserSettings) (th : List (String × Nat))
    (ty : NType) (cat : Option String) (now : Nat)
    (h : (shouldShowNotification u th ty cat now).1 = true) :
    (shouldShowNotification u th ty cat now).2 =
      (throttleKey ty cat, now) :: th := by
  rw [shouldShow_fst_true_iff] at h
  obtain ⟨hblk, hvis, hthr⟩ := h
  unfold shouldShowNotification
  rw [if_neg hblk, if_neg (by simp [hvis])]
  rcases hlk : List.lookup (throttleKey ty cat) th with _ | last
  · simp only [hlk]
  · simp only [hlk]
    split
    · rename_i hin
      exact absurd hin (hthr last hlk)
    · rfl

/-- When the gate sequence of `shouldShowNotification` rejects, the throttle
map is left untouched. -/
theorem shouldShow_snd_of_fst_false (u : UserSettings) (th : List (String × Nat))
    (ty : NType) (cat : Option String) (now : Nat)
    (h : (shouldShowNotification u th ty cat now).1 = false) :
    (shouldShowNotification u th ty cat now).2 = th := by
  unfold shouldShowNotification at h ⊢
  by_cases hblk : cat = some "stock" ∨ cat = some "inventory"
  · rw [if_pos hblk]
  · rw [if_neg hblk] at h ⊢
    by_cases hvis : typeVisible u ty = false
    · rw [if_pos hvis]
    · rw [if_neg hvis] at h ⊢
      rcases hlk : List.lookup (throttleKey ty cat) th with _ | last <;>
        simp only [hlk] at h ⊢
      · simp at h
      · by_cases hin : last ≠ 0 ∧ (now : Int) - (last : Int) <
            (effectiveThrottleDuration u cat : Int)
        · rw [if_pos hin]
        · rw [if_neg hin] at h
          simp at h

/-- Effect of `addNotification` on the live list: prepend the built record exactly when
the stock-content block and duplicate window both pass. -/
theorem addNotification_notifications (s : ServiceState) (inp : NotifInput)
    (now : Nat) (fid : String) (ok : Bool) :
    (addNotification s inp now fid ok).1.notifications =
      if (!stockContentBlocked inp &&
          !decide (isDuplicate s.notifications inp.title inp.message now)) = true
      then mkNotification inp now fid :: s.notifications
      else s.notifications := by
  unfold addNotification
  by_cases hsb : stockContentBlocked inp = true
  · simp [hsb]
  · rw [Bool.not_eq_true] at hsb
    by_cases hd : isDuplicate s.notifications inp.title inp.message now
    · simp [hsb, hd]
    · simp [hsb, hd]

/-- One emission step, on the live list: prepend the built record exactly when
all four gates pass. -/
theorem emitStep_notifications (e : EmitCall) (s : ServiceState) :
    (emitStep e s).notifications =
      if emitAccepts s e then builtNotif e :: s.notifications
      else s.notifications := by
  unfold emitStep emitNotification
  cases hb : (shouldShowNotification s.settings s.throttle e.ty e.category e.now).1 with
  | false => simp [emitAccepts, hb]
  | true =>
    simp only [hb, if_true]
    rw [addNotification_notifications]
    show (if (!stockContentBlocked (emitInput e) &&
          !decide (isDuplicate s.notifications e.title e.message e.now)) = true
        then builtNotif e :: s.notifications else s.notifications) = _
    simp only [emitAccepts, hb, Bool.true_and]

/-- One emission step never changes the settings. -/
theorem emitStep_settings (e : EmitCall) (s : ServiceState) :
    (emitStep e s).settings = s.settings := by
  unfold emitStep emitNotification addNotification
  split
  · split
    · rfl
    · split <;> rfl
  · rfl

/-- One emission step, on the throttle map: exactly the update performed by
`shouldShowNotification` (also when `addNotification` later rejects). -/
theorem emitStep_throttle (e : EmitCall) (s : ServiceState) :
    (emitStep e s).throttle =
      (shouldShowNotification s.settings s.throttle e.ty e.category e.now).2 := by
  unfold emitStep emitNotification addNotification
  split
  · split
    · rfl
    · split <;> rfl
  · rfl

/-- Every operation re-establishes the unread-counter invariant. -/
theorem applyOp_unreadInv (op : Op) (s : ServiceState) (h : unreadInv s) :
    unreadInv (applyOp op s) := by
  cases op with
  | emit e =>
    show unreadInv (emitStep e s)
    unfold emitStep emitNotification addNotification
    split
    · split
      · exact h
      · split
        · exact h
        · exact rfl
    · exact h
  | markRead i ok => exact rfl
  | markAllRead ok => exact rfl
  | remove i ok => exact rfl
  | clearAll ok => exact rfl
  | clearStock => exact rfl
  | update p => exact h

/-! ## Claims -/

/-- Claim C1: after every sequence of public mutating operations from the
initial state, the unread counter equals the number of live entries with
`read = false`. -/
theorem unreadCount_invariant_all_runs (ops : List Op) :
    unreadInv (runOps ops initialState) := by
  have step : ∀ (l : List Op) (s : ServiceState), unreadInv s →
      unreadInv (runOps l s) := by
    intro l
    induction l with
    | nil => intro s hs; exact hs
    | cons op rest ih =>
      intro s hs
      exact ih _ (applyOp_unreadInv op s hs)
  exact step ops initialState rfl

/-- Claim C2: an emission whose category is `'stock'` or `'inventory'` is
rejected by the first gate of `shouldShowNotification` regardless of the
settings, leaving the whole state (live list included) unchanged. -/
theorem stock_or_inventory_category_rejected (s : ServiceState) (ty : NType)
    (title message : String) (cat : Option String) (prio : NPriority)
    (supp : Option Bool) (uid aurl : Option String) (now : Nat) (fid : String)
    (ok : Bool) (h : cat = some "stock" ∨ cat = some "inventory") :
    (emitNotification s ty title message cat prio supp uid aurl now fid ok).1 = s := by
  unfold emitNotification shouldShowNotification
  simp [h]

/-- Witness for C2: the spec's P2 emission
`emit('info', 'x', 'Stock adjustment of 5 units', {category:'stock'})` leaves
the initial state unchanged. -/
theorem stock_or_inventory_category_rejected_witness :
    (emitNotification initialState .info "x" "Stock adjustment of 5 units"
      (some "stock") .low none none none 1000 "f1" true).1 = initialState :=
  stock_or_inventory_category_rejected initialState .info "x"
    "Stock adjustment of 5 units" (some "stock") .low none none none 1000 "f1"
    true (Or.inl rfl)

/-- Claim C9: the in-memory state after every mutating operation is the same
whether its remote persistence call succeeds or fails (the source catches the
error and only logs it, so nothing propagates and nothing is rolled back). -/
theorem persistence_failure_does_not_change_state (s : ServiceState)
    (ty : NType) (title message : String) (cat : Option String)
    (prio : NPriority) (supp : Option Bool) (uid aurl : Option String)
    (now : Nat) (fid i : String) (ok1 ok2 : Bool) :
    (emitNotification s ty title message cat prio supp uid aurl now fid ok1).1 =
      (emitNotification s ty title message cat prio supp uid aurl now fid ok2).1 ∧
    (markAsRead s i ok1).1 = (markAsRead s i ok2).1 ∧
    (markAllAsRead s ok1).1 = (markAllAsRead s ok2).1 ∧
    (removeNotification s i ok1).1 = (removeNotification s i ok2).1 ∧
    (clearAllNotifications s ok1).1 = (clearAllNotifications s ok2).1 := by
  refine ⟨?_, rfl, rfl, rfl, rfl⟩
  unfold emitNotification addNotification
  split
  · split
    · rfl
    · split <;> rfl
  · rfl

/-- Unfolding equation for `acceptedNotifs` on a cons. -/
theorem acceptedNotifs_cons (e : EmitCall) (rest : List EmitCall)
    (s : ServiceState) :
    acceptedNotifs (e :: rest) s =
      (if emitAccepts s e then [builtNotif e] else []) ++
        acceptedNotifs rest (emitStep e s) := rfl

/-- Claim C6: the live list after any run of emission calls is exactly the
accepted calls' records, newest first, on top of the starting list — rejected
attempts leave no trace; concretely, accepted emissions A, B, C with a
rejected attempt interleaved yield the list `[C, B, A]`. -/
theorem live_list_newest_first :
    (∀ (es : List EmitCall) (s : ServiceState),
      (runEmits es s).notifications =
        (acceptedNotifs es s).reverse ++ s.notifications) ∧
    (runEmits [ordersCall 10000 "A", ordersCall 20000 "B",
        { ty := .info, title := "R", message := "M", category := some "orders",
          priority := .low, now := 25000, freshId := "r" },
        ordersCall 30000 "C"] initialState).notifications.map
      (fun n => n.title) = ["C", "B", "A"] := by
  constructor
  · intro es
    induction es with
    | nil => intro s; simp [runEmits, acceptedNotifs]
    | cons e rest ih =>
      intro s
      show (runEmits rest (emitStep e s)).notifications = _
      rw [ih, acceptedNotifs_cons]
      rw [List.reverse_append, List.append_assoc]
      by_cases ha : emitAccepts s e = true
      · rw [emitStep_notifications, if_pos ha, if_pos ha]
        simp
      · rw [Bool.not_eq_true] at ha
        rw [emitStep_notifications]
        simp [ha]
  · decide

/-- Concrete live entry used by the C8 witness. -/
def absNotif : Notification :=
  { id := "a"
    title := "T"
    message := "Msg"
    type := .success
    timestamp := 50
    read := false
    priority := .low }

/-- Concrete state used by the C8 witness. -/
def absState : ServiceState :=
  { notifications := [absNotif]
    unreadCount := 1
    throttle := []
    settings := defaultSettings }

/-- Claim C8: `markAsRead` and `removeNotification` called with an id absent
from the live list leave the whole state unchanged (the counter hypothesis
`unreadInv` holds in every reachable state by C1). -/
theorem markRead_remove_absent_id_noop (s : ServiceState) (i : String)
    (ok1 ok2 : Bool) (hinv : unreadInv s)
    (habs : ∀ n ∈ s.notifications, n.id ≠ i) :
    (markAsRead s i ok1).1 = s ∧ (removeNotification s i ok2).1 = s := by
  have hmap : s.notifications.map (setReadIfId i) = s.notifications := by
    have h : ∀ n ∈ s.notifications, setReadIfId i n = id n := by
      intro n hn
      simp [setReadIfId, habs n hn]
    rw [List.map_congr_left h, List.map_id]
  have hfil : s.notifications.filter (fun n => n.id ≠ i) = s.notifications := by
    rw [List.filter_eq_self]
    intro a ha
    simpa using habs a ha
  constructor
  · unfold markAsRead
    dsimp only
    rw [hmap, ← hinv]
  · unfold removeNotification
    dsimp only
    rw [hfil, ← hinv]

/-- Witness for C8: a concrete unread entry with id `"a"`, operations called
with id `"zzz"`. -/
theorem markRead_remove_absent_id_noop_witness :
    (markAsRead absState "zzz" true).1 = absState ∧
    (removeNotification absState "zzz" false).1 = absState :=
  markRead_remove_absent_id_noop absState "zzz" true false (by decide) (by decide)

/-- Concrete read entry used by the C7 witness. -/
def remNotifA : Notification :=
  { id := "a"
    title := "TA"
    message := "MA"
    type := .warning
    timestamp := 10
    read := true
    priority := .medium }

/-- Concrete unread entry used by the C7 witness. -/
def remNotifB : Notification :=
  { id := "b"
    title := "TB"
    message := "MB"
    type := .error
    timestamp := 20
    read := false
    priority := .high }

/-- Concrete state used by the C7 witness. -/
def remState : ServiceState :=
  { notifications := [remNotifA, remNotifB]
    unreadCount := 1
    throttle := []
    settings := defaultSettings }

/-- Claim C7: removing a present id deletes exactly that entry and lowers the
unread counter by one exactly when the entry was unread; `clearAllNotifications`
empties the list and zeroes the counter. -/
theorem remove_clearAll_spec (s : ServiceState) (i : String) (ok1 ok2 : Bool)
    (n : Notification) (l1 l2 : List Notification)
    (hsplit : s.notifications = l1 ++ n :: l2) (hid : n.id = i)
    (h1 : ∀ m ∈ l1, m.id ≠ i) (h2 : ∀ m ∈ l2, m.id ≠ i)
    (hinv : unreadInv s) :
    (removeNotification s i ok1).1.notifications = l1 ++ l2 ∧
    (∀ m ∈ (removeNotification s i ok1).1.notifications, m.id ≠ i) ∧
    (removeNotification s i ok1).1.unreadCount =
      (if n.read then s.unreadCount else s.unreadCount - 1) ∧
    (clearAllNotifications s ok2).1.notifications = [] ∧
    (clearAllNotifications s ok2).1.unreadCount = 0 := by
  have e1 : l1.filter (fun m => m.id ≠ i) = l1 := by
    rw [List.filter_eq_self]
    intro a ha
    simpa using h1 a ha
  have e2 : l2.filter (fun m => m.id ≠ i) = l2 := by
    rw [List.filter_eq_self]
    intro a ha
    simpa using h2 a ha
  have hfil : s.notifications.filter (fun m => m.id ≠ i) = l1 ++ l2 := by
    rw [hsplit, List.filter_append, e1, List.filter_cons]
    rw [show (decide (n.id ≠ i)) = false by simp [hid]]
    simpa using e2
  refine ⟨?_, ?_, ?_, rfl, rfl⟩
  · show s.notifications.filter (fun m => m.id ≠ i) = l1 ++ l2
    exact hfil
  · show ∀ m ∈ s.notifications.filter (fun m => m.id ≠ i), m.id ≠ i
    rw [hfil]
    intro m hm
    rcases List.mem_append.mp hm with h | h
    · exact h1 m h
    · exact h2 m h
  · show countUnread (s.notifications.filter (fun m => m.id ≠ i)) =
      if n.read then s.unreadCount else s.unreadCount - 1
    rw [hfil, hinv, hsplit]
    unfold countUnread
    cases hr : n.read
    · simp [List.filter_append, hr, List.length_append]
    · simp [List.filter_append, hr, List.length_append]

/-- Witness for C7: removing the unread entry `"b"` from a two-entry list. -/
theorem remove_clearAll_spec_witness :
    (removeNotification remState "b" true).1.notifications = [remNotifA] ++ [] ∧
    (∀ m ∈ (removeNotification remState "b" true).1.notifications, m.id ≠ "b") ∧
    (removeNotification remState "b" true).1.unreadCount =
      (if remNotifB.read then remState.unreadCount else remState.unreadCount - 1) ∧
    (clearAllNotifications remState false).1.notifications = [] ∧
    (clearAllNotifications remState false).1.unreadCount = 0 :=
  remove_clearAll_spec remState "b" true false remNotifB [remNotifA] [] rfl rfl
    (by decide) (by decide) (by decide)

/-- Claim C5: while a type's visibility flag is off, every emission of that
type leaves the state unchanged; `updateSettings` touches only the settings
(no retroactive effect on the live list, counter, or throttle state); once the
flag is on, a subsequent emission of that type passes the visibility gate and
(absent the other gates) enters the live list. -/
theorem visibility_gating (s : ServiceState) (ty : NType) (p : SettingsPatch)
    (title message : String) (cat : Option String) (prio : NPriority)
    (supp : Option Bool) (uid aurl : Option String) (now : Nat) (fid : String)
    (ok : Bool) :
    (typeVisible s.settings ty = false →
      (emitNotification s ty title message cat prio supp uid aurl now fid ok).1 = s) ∧
    ((updateSettings s p).notifications = s.notifications ∧
      (updateSettings s p).unreadCount = s.unreadCount ∧
      (updateSettings s p).throttle = s.throttle) ∧
    (typeVisible (updateSettings s p).settings ty = true →
      ¬(cat = some "stock" ∨ cat = some "inventory") →
      List.lookup (throttleKey ty cat) s.throttle = none →
      stockContentBlocked (mkNotifInput ty title message cat prio supp uid aurl) = false →
      ¬isDuplicate s.notifications title message now →
      (emitNotification (updateSettings s p) ty title message cat prio supp uid
          aurl now fid ok).1.notifications =
        mkNotification (mkNotifInput ty title message cat prio supp uid aurl)
          now fid :: s.notifications) := by
  refine ⟨?_, ⟨rfl, rfl, rfl⟩, ?_⟩
  · intro hoff
    cases hb : (shouldShowNotification s.settings s.throttle ty cat now).1 with
    | true =>
      exfalso
      obtain ⟨-, hvis, -⟩ := (shouldShow_fst_true_iff _ _ _ _ _).mp hb
      rw [hoff] at hvis
      exact Bool.false_ne_true hvis
    | false =>
      unfold emitNotification
      rw [if_neg (by simp [hb]), shouldShow_snd_of_fst_false _ _ _ _ _ hb]
  · intro hvis hblk hlk hsb hdup
    have hfst : (shouldShowNotification (updateSettings s p).settings
        (updateSettings s p).throttle ty cat now).1 = true := by
      rw [shouldShow_fst_true_iff]
      refine ⟨hblk, hvis, ?_⟩
      intro l hl
      rw [show (updateSettings s p).throttle = s.throttle from rfl, hlk] at hl
      exact absurd hl (by simp)
    unfold emitNotification
    rw [if_pos hfst, addNotification_notifications]
    show (if (!stockContentBlocked (mkNotifInput ty title message cat prio supp uid aurl) &&
        !decide (isDuplicate s.notifications title message now)) = true
      then mkNotification (mkNotifInput ty title message cat prio supp uid aurl)
        now fid :: s.notifications
      else s.notifications) = _
    simp [hsb, hdup]

/-- Patch used by the C5 witness: turn info notifications on. -/
def infoOnPatch : SettingsPatch :=
  { showInfoNotifications := some true }

/-- Witness for C5: info emissions are rejected under the default settings and
accepted after `updateSettings` enables the flag. -/
theorem visibility_gating_witness :
    (emitNotification initialState .info "Hello" "World" (some "orders") .low
        none none none 1000 "w5" true).1 = initialState ∧
    (emitNotification (updateSettings initialState infoOnPatch) .info "Hello"
        "World" (some "orders") .low none none none 1000 "w5" true).1.notifications =
      mkNotification (mkNotifInput .info "Hello" "World" (some "orders") .low
        none none none) 1000 "w5" :: initialState.notifications :=
  ⟨(visibility_gating initialState .info infoOnPatch "Hello" "World"
      (some "orders") .low none none none 1000 "w5" true).1 (by decide),
   (visibility_gating initialState .info infoOnPatch "Hello" "World"
      (some "orders") .low none none none 1000 "w5" true).2.2 (by decide)
      (by decide) rfl (by decide) (by decide)⟩

/-- Claim C4: starting from an empty live list, if a first emission is
accepted, a second emission with the same title and message within 5 seconds
is rejected (fixed duplicate window, independent of `throttleDuration`),
leaving exactly one live entry; spaced 6 or more seconds apart (with the
throttle window, at most 6 s here, also elapsed) it is accepted, leaving two. -/
theorem duplicate_window (st : UserSettings) (e1 e2 : EmitCall)
    (hty : e2.ty = e1.ty) (hti : e2.title = e1.title) (hms : e2.message = e1.message)
    (hcat : e2.category = e1.category)
    (hacc : emitAccepts ⟨[], 0, [], st⟩ e1 = true) :
    ((e2.now : Int) - (e1.now : Int) < 5000 →
      (runEmits [e1, e2] ⟨[], 0, [], st⟩).notifications.length = 1) ∧
    (e1.now + 6000 ≤ e2.now → st.throttleDuration ≤ 6000 →
      (runEmits [e1, e2] ⟨[], 0, [], st⟩).notifications.length = 2) := by
  have hn1 : (emitStep e1 ⟨[], 0, [], st⟩).notifications = [builtNotif e1] := by
    rw [emitStep_notifications, if_pos hacc]
  constructor
  · intro hlt
    have hdup : isDuplicate (emitStep e1 ⟨[], 0, [], st⟩).notifications
        e2.title e2.message e2.now := by
      rw [hn1]
      exact ⟨builtNotif e1, by simp, hti.symm, hms.symm, hlt⟩
    show (emitStep e2 (emitStep e1 ⟨[], 0, [], st⟩)).notifications.length = 1
    rw [emitStep_notifications, if_neg (by simp [emitAccepts, hdup]), hn1]
    rfl
  · intro hgap hthr
    simp only [emitAccepts, Bool.and_eq_true, Bool.not_eq_true',
      decide_eq_false_iff_not] at hacc
    obtain ⟨⟨hshow1, hsb1⟩, -⟩ := hacc
    obtain ⟨hblk, hvis, -⟩ := (shouldShow_fst_true_iff _ _ _ _ _).mp hshow1
    have hset : (emitStep e1 ⟨[], 0, [], st⟩).settings = st :=
      emitStep_settings e1 _
    have hth : (emitStep e1 ⟨[], 0, [], st⟩).throttle =
        [(throttleKey e1.ty e1.category, e1.now)] := by
      rw [emitStep_throttle, shouldShow_snd_of_fst_true _ _ _ _ _ hshow1]
    have hacc2 : emitAccepts (emitStep e1 ⟨[], 0, [], st⟩) e2 = true := by
      have hshow2 : (shouldShowNotification
          (emitStep e1 ⟨[], 0, [], st⟩).settings
          (emitStep e1 ⟨[], 0, [], st⟩).throttle e2.ty e2.category e2.now).1 = true := by
        rw [shouldShow_fst_true_iff, hset, hth, hty, hcat]
        refine ⟨hblk, hvis, ?_⟩
        intro l hl
        simp only [List.lookup, beq_self_eq_true, if_true] at hl
        rintro ⟨-, hbad⟩
        have heff : effectiveThrottleDuration st e1.category = st.throttleDuration := by
          unfold effectiveThrottleDuration
          rw [if_neg (fun h => hblk (Or.inl h))]
        rw [heff] at hbad
        have hl' : l = e1.now := by
          cases hl
          rfl
        rw [hl'] at hbad
        have h1 : (e1.now : Int) + 6000 ≤ (e2.now : Int) := by exact_mod_cast hgap
        have h2 : (st.throttleDuration : Int) ≤ 6000 := by exact_mod_cast hthr
        omega
      have hnodup : ¬isDuplicate (emitStep e1 ⟨[], 0, [], st⟩).notifications
          e2.title e2.message e2.now := by
        rw [hn1]
        rintro ⟨m, hm, -, -, hlt5⟩
        have hm' : m = builtNotif e1 := by simpa using hm
        rw [hm'] at hlt5
        have hts : (builtNotif e1).timestamp = e1.now := rfl
        rw [hts] at hlt5
        have h1 : (e1.now : Int) + 6000 ≤ (e2.now : Int) := by exact_mod_cast hgap
        omega
      have hsb2 : stockContentBlocked (emitInput e2) = false := by
        unfold stockContentBlocked emitInput mkNotifInput at hsb1 ⊢
        dsimp only at hsb1 ⊢
        rw [hti, hms, hcat]
        exact hsb1
      simp [emitAccepts, hshow2, hsb2, hnodup]
    show (emitStep e2 (emitStep e1 ⟨[], 0, [], st⟩)).notifications.length = 2
    rw [emitStep_notifications, if_pos hacc2, hn1]
    rfl

/-- Witness for C4: default settings, identical warning emissions with category
`'orders'` at 10000/11000 ms give one entry, at 10000/16000 ms give two. -/
theorem duplicate_window_witness :
    (runEmits [ordersCall 10000 "A", ordersCall 11000 "A"]
      ⟨[], 0, [], defaultSettings⟩).notifications.length = 1 ∧
    (runEmits [ordersCall 10000 "A", ordersCall 16000 "A"]
      ⟨[], 0, [], defaultSettings⟩).notifications.length = 2 :=
  ⟨(duplicate_window defaultSettings (ordersCall 10000 "A") (ordersCall 11000 "A")
      rfl rfl rfl rfl (by decide)).1 (by decide),
   (duplicate_window defaultSettings (ordersCall 10000 "A") (ordersCall 16000 "A")
      rfl rfl rfl rfl (by decide)).2 (by decide) (by decide)⟩

/-- Counterexample to C3 as stated: after an accepted emission at 10000 ms and
a duplicate-rejected emission at 13500 ms (which nonetheless updated the
throttle map), an emission of the same `(warning, orders)` key at 15000 ms is
rejected by the code, although the last *accepted* notification of that key is
5000 ms old — outside `throttleDuration = 3000` — so the claim's reading of
the ThrottleState entry predicts acceptance (`specThrottleRejects = false`),
while the category/visibility gates pass and no duplicate exists. -/
theorem throttle_rejects_despite_old_last_accepted :
    ((runEmits [ordersCall 10000 "A", ordersCall 13500 "A"]
        initialState).notifications.map (fun n => (n.title, n.timestamp)) =
      [("A", 10000)]) ∧
    ((ordersCall 15000 "B").category ≠ some "stock" ∧
      (ordersCall 15000 "B").category ≠ some "inventory") ∧
    typeVisible initialState.settings (ordersCall 15000 "B").ty = true ∧
    ¬isDuplicate (runEmits [ordersCall 10000 "A", ordersCall 13500 "A"]
        initialState).notifications "B" "M" 15000 ∧
    specThrottleRejects (some 10000) defaultSettings.throttleDuration 15000 = false ∧
    ((runEmits [ordersCall 10000 "A", ordersCall 13500 "A", ordersCall 15000 "B"]
        initialState).notifications.map (fun n => n.title) = ["A"]) := by
  decide

/-- Claim C3, amended: for an emission that passes the category and visibility
gates, the throttle gate rejects it iff the stored entry for its
`(type, category)` key — the timestamp of the last emission of that key that
passed the category, visibility, and throttle gates, recorded even when that
emission was afterwards rejected by the stock-content or duplicate check — is
present, nonzero, and within `throttleDuration` ms of now (the 15 s floor for
category `'stock'` is unreachable, since `'stock'` never passes the category
gate); concretely, warning/`'orders'` emissions with distinct titles 1 s apart
yield one live entry and 3.5 s apart yield two. -/
theorem throttle_gate_characterization :
    (∀ (u : UserSettings) (th : List (String × Nat)) (ty : NType)
        (cat : Option String) (now : Nat),
      ¬(cat = some "stock" ∨ cat = some "inventory") → typeVisible u ty = true →
      ((shouldShowNotification u th ty cat now).1 = false ↔
        ∃ last, List.lookup (throttleKey ty cat) th = some last ∧ last ≠ 0 ∧
          (now : Int) - (last : Int) < (u.throttleDuration : Int))) ∧
    (∀ (e : EmitCall) (s : ServiceState),
      (shouldShowNotification s.settings s.throttle e.ty e.category e.now).1 = true →
      List.lookup (throttleKey e.ty e.category) (emitStep e s).throttle =
        some e.now) ∧
    ((runEmits [ordersCall 10000 "A", ordersCall 11000 "B"]
        initialState).notifications.length = 1 ∧
      (runEmits [ordersCall 10000 "A", ordersCall 13500 "B"]
        initialState).notifications.length = 2) := by
  refine ⟨?_, ?_, by decide, by decide⟩
  · intro u th ty cat now hblk hvis
    have heff : effectiveThrottleDuration u cat = u.throttleDuration := by
      unfold effectiveThrottleDuration
      rw [if_neg (fun h => hblk (Or.inl h))]
    rw [← Bool.not_eq_true, shouldShow_fst_true_iff, heff]
    simp only [hblk, hvis, not_false_iff, true_and, not_forall]
    constructor
    · rintro ⟨l, hlk, hnn⟩
      obtain ⟨hnz, hlt⟩ := not_not.mp hnn
      exact ⟨l, hlk, hnz, hlt⟩
    · rintro ⟨l, hlk, hnz, hlt⟩
      exact ⟨l, hlk, fun hneg => hneg ⟨hnz, hlt⟩⟩
  · intro e s h
    rw [emitStep_throttle, shouldShow_snd_of_fst_true _ _ _ _ _ h]
    simp [List.lookup]

/-- Witness for C3 (amended): with the key's entry at 10000 ms, an emission of
the same key at 11000 ms is rejected by the throttle gate. -/
theorem throttle_gate_characterization_witness :
    (shouldShowNotification defaultSettings [("warning-orders", 10000)] .warning
      (some "orders") 11000).1 = false :=
  (throttle_gate_characterization.1 defaultSettings [("warning-orders", 10000)]
      .warning (some "orders") 11000 (by decide) (by decide)).mpr
    ⟨10000, by decide, by decide, by decide⟩

/-- Claim C10: `notifyStockAdjustment` is an unconditional no-op on the whole
service state for every argument combination (its body is a `console.log`
and a `return`; its signature carries no persistence oracle because the source
performs no remote call). -/
theorem notifyStockAdjustment_noop (s : ServiceState) (productName : String)
    (quantity : Int) (ty : String) (userId : Option String) :
    (notifyStockAdjustment s productName quantity ty userId).1 = s := rfl

end Warehouse
